import Mathlib

/-!
Shallow embedding of the synchronization core of collab-stream-sync.

Sources embedded here:
* `supabase/migrations/20250821161515_….sql` — `claim_host`, `transfer_host`
  (plpgsql functions over the `room_state` and `host_lock` tables);
* `supabase/migrations` / `unnamed/part_000` — the row-level-security policy
  "Room members can update room state";
* `src/pages/Room.tsx` — the `subscribeToRoomState` callback inside
  `initializeRoom` (the client-side state reconciler);
* `src/lib/websocket.ts` — `WebSocketManager.ping`;
* `src/components/VideoPlayer.tsx` — `syncServerTime`;
* `unnamed/part_009` — `calculateDrift` (the tiered drift corrector),
  `handleSyncNow`, `handleSeek` guard, and the predictive
  `expectedPosition` computation of the video-state sync effect.

User ids (`auth.uid()`, `host_user_id`) are modelled as `Nat`; SQL `NULL`
as `Option`; TypeScript numbers as `ℚ` (positions, rates) or `Int`
(millisecond timestamps).
-/

/-! Section: host lock database model

`room_state` has a nullable `host_user_id` column, and the row itself may be
absent, so the room's canonical host is `Option (Option Nat)`:
`none` = no `room_state` row, `some none` = row present with NULL host.
`host_lock` has `host_user_id NOT NULL`, so the row is `Option Nat`. -/

structure HostDB where
  stateRow : Option (Option Nat)
  lockRow : Option Nat
  deriving DecidableEq, Repr

/-- Embeds `SELECT host_user_id INTO current_host FROM room_state WHERE room_id = …`:
yields NULL both when the row is missing and when the column is NULL. -/
def hostOfState (db : HostDB) : Option Nat :=
  db.stateRow.bind id

/-- The plpgsql condition `current_host IS NOT NULL` of `claim_host`. -/
def claimRefused (db : HostDB) : Bool :=
  (hostOfState db).isSome

/-- The write block of `claim_host`:
`INSERT INTO host_lock … ON CONFLICT (room_id) DO NOTHING` followed by
`UPDATE room_state SET host_user_id = auth.uid()`. -/
def claimWrite (db : HostDB) (caller : Nat) : HostDB :=
  { stateRow := db.stateRow.map (fun _ => some caller)
    lockRow := if db.lockRow.isNone then some caller else db.lockRow }

/-- Function `claim_host(room_id_param)` run by `caller`: returns the boolean result
and the database after the call. -/
def claim_host (db : HostDB) (caller : Nat) : Bool × HostDB :=
  if claimRefused db then (false, db)
  else (true, claimWrite db caller)

/-- The plpgsql condition `current_host != auth.uid()` of `transfer_host`.
SQL three-valued logic: when `current_host` is NULL the comparison is NULL,
which `IF` treats as not-true, so only a present, different host refuses. -/
def transferRefused (db : HostDB) (caller : Nat) : Bool :=
  match hostOfState db with
  | some h => h != caller
  | none => false

/-- The write block of `transfer_host`:
`UPDATE host_lock SET host_user_id = new_host_id` and
`UPDATE room_state SET host_user_id = new_host_id` (each a no-op when the
targeted row does not exist). -/
def transferWrite (db : HostDB) (newHost : Nat) : HostDB :=
  { stateRow := db.stateRow.map (fun _ => some newHost)
    lockRow := db.lockRow.map (fun _ => newHost) }

/-- Function `transfer_host(room_id_param, new_host_id)` run by `caller`. -/
def transfer_host (db : HostDB) (caller newHost : Nat) : Bool × HostDB :=
  if transferRefused db caller then (false, db)
  else (true, transferWrite db newHost)

/-! Section: interleaved execution of two `claim_host` calls

`claim_host` is two database round trips: the `SELECT` of the current host,
then the `INSERT`/`UPDATE`/`RETURN TRUE` block.  Under READ COMMITTED two
concurrent calls may interleave these phases, so we model a call as a
read step capturing `current_host` and a write step acting on it. -/

inductive Tid where
  | A
  | B
  deriving DecidableEq, Repr

structure RaceState where
  db : HostDB
  readA : Option (Option Nat)
  readB : Option (Option Nat)
  retA : Option Bool
  retB : Option Bool
  deriving DecidableEq, Repr

/-- One scheduler step of thread `t`: its read phase if it has not read yet,
otherwise its write phase if it has not returned yet. -/
def raceStep (callerA callerB : Nat) (s : RaceState) (t : Tid) : RaceState :=
  match t with
  | .A =>
    match s.readA, s.retA with
    | none, _ => { s with readA := some (hostOfState s.db) }
    | some r, none =>
      if r.isSome then { s with retA := some false }
      else { s with db := claimWrite s.db callerA, retA := some true }
    | some _, some _ => s
  | .B =>
    match s.readB, s.retB with
    | none, _ => { s with readB := some (hostOfState s.db) }
    | some r, none =>
      if r.isSome then { s with retB := some false }
      else { s with db := claimWrite s.db callerB, retB := some true }
    | some _, some _ => s

/-- Run a schedule of interleaved steps of the two `claim_host` calls. -/
def runRace (callerA callerB : Nat) (db : HostDB) (sched : List Tid) : RaceState :=
  sched.foldl (raceStep callerA callerB) ⟨db, none, none, none, none⟩

/-! Section: row-level security and client write paths -/

/-- A single room's membership and lock, for the authorization model. -/
structure RoomACL where
  members : List Nat
  lockRow : Option Nat
  deriving DecidableEq, Repr

/-- Policy "Room members can update room state" (`unnamed/part_000`):
`room_id IN (SELECT room_id FROM get_user_room_membership(auth.uid()))`,
where `get_user_room_membership` returns the rooms the user is a member of. -/
def canUpdateRoomState (acl : RoomACL) (user : Nat) : Bool :=
  acl.members.contains user

/-- Whether `user` holds the room's `host_lock`. -/
def holdsHostLock (acl : RoomACL) (user : Nat) : Bool :=
  acl.lockRow == some user

/-- Handler `handleSyncNow` (`unnamed/part_009`): guard is
`if (!playerRef.current || !room) return;` — no host check — and then the
user's current position is written to the room state.  Returns the
`updateRoomState` request it issues, if any. -/
def handleSyncNow (hasPlayer hasRoom : Bool) (pos : ℚ) (paused : Bool) :
    Option (ℚ × Bool) :=
  if hasPlayer && hasRoom then some (pos, paused) else none

/-- Handler `handleSeek` (`unnamed/part_009`): guard is
`if (!hostState.isHost || !room || isUpdatingState) return;` — the seek
write is issued only for the host. -/
def handleSeekRequest (isHost hasRoom isUpdatingState : Bool) (t : ℚ) : Option ℚ :=
  if !isHost || !hasRoom || isUpdatingState then none else some t

/-! Section: clock sync probe -/

/-- Method `WebSocketManager.ping` (`src/lib/websocket.ts`): `T0 = Date.now()` at
send; on `ws:pong` the handler destructures `serverNow` but never uses it
and resolves `rtt = Date.now() - startTime = T1 - T0`. -/
def ping (T0 serverNow T1 : Int) : Int := T1 - T0

/-- Callback `syncServerTime` (`src/components/VideoPlayer.tsx`):
`setServerTimeOffset(0)` — the client clock offset is the constant 0.
The `unnamed/part_009` variant likewise sets `offset: 0`. -/
def serverTimeOffset : Int := 0

/-- Corrected client time: local time plus the stored offset. -/
def correctedNow (localNow : Int) : Int := localNow + serverTimeOffset

/-- Modelled from the spec (for comparison with the code): the NTP-style
formula `offset = Ts - T1 + rtt/2` with `rtt = T1 - T0` of §4.3. -/
def offsetSpec (T0 Ts T1 : Int) : Int := Ts - T1 + (T1 - T0) / 2

/-! Section: state reconciler (`src/pages/Room.tsx`)

The `subscribeToRoomState` callback inside `initializeRoom` receives each
`room_state` row pushed by the realtime channel and calls `setVideoState`
with every playback field of the payload; there is no comparison against
the previously applied state.  We model the playback-relevant columns of
the payload and of the local video state. -/

structure RoomStatePayload where
  paused : Bool
  position : ℚ
  playback_rate : ℚ
  host_user_id : Option Nat
  /-- Column `updated_at`, as `new Date(updated_at).getTime()` milliseconds;
  this is the record's version stamp. -/
  updated_at : Int
  deriving DecidableEq, Repr

structure VideoState where
  paused : Bool
  position : ℚ
  playbackRate : ℚ
  hostId : Option Nat
  lastUpdated : Int
  deriving DecidableEq, Repr

/-- The subscription callback body (`Room.tsx`): `setVideoState({...})` with
every field taken from the incoming payload, unconditionally. -/
def applyRoomStateNotification (_s : VideoState) (n : RoomStatePayload) : VideoState :=
  { paused := n.paused
    position := n.position
    playbackRate := n.playback_rate
    hostId := n.host_user_id
    lastUpdated := n.updated_at }

/-- Local video state after a sequence of delivered notifications. -/
def reconcile (s : VideoState) (ns : List RoomStatePayload) : VideoState :=
  ns.foldl applyRoomStateNotification s

/-! Section: drift monitor and corrector (`unnamed/part_009`, `calculateDrift`) -/

inductive DriftAction where
  /-- Tier `drift > 5000`: `playerRef.current.currentTime = expectedPosition`. -/
  | hardSync (pos : ℚ)
  /-- Tier `drift > 2000`: `currentTime = actual + (expected - actual) * 0.1`. -/
  | gradualSync (pos : ℚ)
  /-- Tier `drift > 1000`: `playbackRate = expected > actual ? 1.05 : 0.95`. -/
  | rateAdjust (rate : ℚ)
  /-- otherwise: no correction. -/
  | noAction
  deriving DecidableEq, Repr

/-- Line `const drift = Math.abs(expectedPosition - actualPosition) * 1000`. -/
def driftMs (expectedPosition actualPosition : ℚ) : ℚ :=
  |expectedPosition - actualPosition| * 1000

/-- The correction chosen by the `if / else if / else if` ladder of
`calculateDrift`. -/
def driftAction (expectedPosition actualPosition : ℚ) : DriftAction :=
  if 5000 < driftMs expectedPosition actualPosition then
    .hardSync expectedPosition
  else if 2000 < driftMs expectedPosition actualPosition then
    .gradualSync (actualPosition + (expectedPosition - actualPosition) * (1 / 10))
  else if 1000 < driftMs expectedPosition actualPosition then
    .rateAdjust (if actualPosition < expectedPosition then 105 / 100 else 95 / 100)
  else
    .noAction

/-- Callback `calculateDrift`: returns early (no evaluation at all) when the client
is the host or a seek is in flight; otherwise applies the tier ladder. -/
def calculateDrift (isHost isSeeking : Bool) (expectedPosition actualPosition : ℚ) :
    Option DriftAction :=
  if isHost || isSeeking then none
  else some (driftAction expectedPosition actualPosition)

/-- JavaScript `x || 1.0` on a playback rate: `0` is falsy. -/
def jsOrOne (r : ℚ) : ℚ := if r = 0 then 1 else r

/-- The `setTimeout(..., 2000)` body of the rate-adjust tier:
`playerRef.current.playbackRate = videoState.playbackRate || 1.0`. -/
def rateAfterWindow (canonicalRate : ℚ) : ℚ := jsOrOne canonicalRate

/-! Section: predictive position (`unnamed/part_009`, video-state sync effect)

```
let expectedPosition = videoState.position;
if (!videoState.paused && timeSinceUpdate > 0 && timeSinceUpdate < 10) {
  const playbackRate = videoState.playbackRate || 1.0;
  expectedPosition += timeSinceUpdate * playbackRate;
  const networkDelay = connectionState.rtt / 2000;
  expectedPosition += networkDelay;
}
``` -/
def expectedPosition (paused : Bool) (position playbackRate rttMs timeSinceUpdate : ℚ) : ℚ :=
  if paused = false ∧ 0 < timeSinceUpdate ∧ timeSinceUpdate < 10 then
    position + timeSinceUpdate * jsOrOne playbackRate + rttMs / 2000
  else
    position

/-! Section: theorems about the claims -/

/-- Helper: the drift in milliseconds when the client is at or behind the
predicted position. -/
theorem driftMs_of_le {e a : ℚ} (h : a ≤ e) : driftMs e a = (e - a) * 1000 := by
  rw [driftMs, abs_of_nonneg (by linarith)]

/-- C1 (counterexample): with notifications of versions 2000 then 1000
delivered in that order, the reconciled video state is not the newer
(version-2000) payload — the handler never discards stale versions. -/
theorem C1_counterexample :
    reconcile ⟨true, 0, 1, none, 0⟩
        [⟨false, 7, 1, some 1, 2000⟩, ⟨false, 5, 1, some 1, 1000⟩]
      ≠ applyRoomStateNotification ⟨true, 0, 1, none, 0⟩ ⟨false, 7, 1, some 1, 2000⟩ ∧
    (reconcile ⟨true, 0, 1, none, 0⟩
        [⟨false, 7, 1, some 1, 2000⟩, ⟨false, 5, 1, some 1, 1000⟩]).lastUpdated = 1000 := by
  decide

/-- C1 (amended): the `subscribeToRoomState` callback applies every incoming
state unconditionally, so after deliveries `v2, v1` the reconciled local
video state is the `v1` payload (last delivered wins, not last written). -/
theorem C1_last_delivered_wins (s : VideoState) (n2 n1 : RoomStatePayload) :
    reconcile s [n2, n1] =
      { paused := n1.paused
        position := n1.position
        playbackRate := n1.playback_rate
        hostId := n1.host_user_id
        lastUpdated := n1.updated_at } := rfl

/-- C2 (counterexample): on a room whose `room_state` row has a NULL
`host_user_id` and that has no `host_lock` row, `transfer_host` called by
user 1 (who is not the host — there is none) returns `true`, and the
`host_lock` row is not rewritten to user 2 (it still does not exist). -/
theorem C2_counterexample :
    (transfer_host ⟨some none, none⟩ 1 2).1 = true ∧
    (transfer_host ⟨some none, none⟩ 1 2).2.lockRow = none ∧
    hostOfState ⟨some none, none⟩ = none := by
  decide

/-- C2 (amended): `transfer_host` returns `false` iff the current
`room_state` host is present and differs from the caller (a NULL host falls
through the SQL inequality and the transfer succeeds); on success it sets
`room_state.host_user_id` to the new host and rewrites the `host_lock` row
where these rows exist. -/
theorem C2_transfer_characterization (db : HostDB) (A B : Nat) :
    ((transfer_host db A B).1 = false ↔ ∃ h, hostOfState db = some h ∧ h ≠ A) ∧
    ((transfer_host db A B).1 = true →
      (transfer_host db A B).2.stateRow = db.stateRow.map (fun _ => some B) ∧
      (transfer_host db A B).2.lockRow = db.lockRow.map (fun _ => B)) := by
  unfold transfer_host transferRefused transferWrite
  rcases hs : hostOfState db with _ | h0
  · simp
  · by_cases hA : h0 = A
    · subst hA
      simp
    · simp [bne_iff_ne, hA]

/-- C2 witness: with current host 1, `transfer_host` by caller 1 to user 2
rewrites both rows to user 2. -/
theorem C2_transfer_characterization_witness :
    (transfer_host ⟨some (some 1), some 1⟩ 1 2).2.stateRow = some (some 2) ∧
    (transfer_host ⟨some (some 1), some 1⟩ 1 2).2.lockRow = some 2 := by
  have h := (C2_transfer_characterization ⟨some (some 1), some 1⟩ 1 2).2 (by decide)
  exact ⟨h.1, h.2⟩

/-- C3 (counterexample): `claim_host` decides on `room_state.host_user_id`,
not on existence of a `host_lock` row.  Left: no `host_lock` row exists yet
the claim returns `false` (state host is 1, caller 2).  Right: a `host_lock`
row held by user 1 exists yet the claim by user 2 returns `true`, and the
lock row is left with user 1, not created for the caller. -/
theorem C3_counterexample :
    ((claim_host ⟨some (some 1), none⟩ 2).1 = false ∧
      (⟨some (some 1), none⟩ : HostDB).lockRow = none) ∧
    ((claim_host ⟨some none, some 1⟩ 2).1 = true ∧
      (⟨some none, some 1⟩ : HostDB).lockRow = some 1 ∧
      (claim_host ⟨some none, some 1⟩ 2).2.lockRow = some 1) := by
  decide

/-- C3 (amended): `claim_host` returns `true` iff the room's
`room_state.host_user_id` is NULL (or the row is absent), regardless of the
`host_lock` table; on success it sets the state host to the caller and
inserts the `host_lock` row only when none exists, leaving any existing row
untouched. -/
theorem C3_claim_characterization (db : HostDB) (u : Nat) :
    ((claim_host db u).1 = true ↔ hostOfState db = none) ∧
    ((claim_host db u).1 = true →
      (claim_host db u).2.stateRow = db.stateRow.map (fun _ => some u) ∧
      (claim_host db u).2.lockRow =
        (if db.lockRow.isNone then some u else db.lockRow)) := by
  unfold claim_host claimRefused claimWrite
  rcases hs : hostOfState db with _ | h0 <;> simp

/-- C3 witness: claiming an entirely unclaimed room succeeds and creates
the lock row for the caller. -/
theorem C3_claim_characterization_witness :
    (claim_host ⟨some none, none⟩ 1).2.stateRow = some (some 1) ∧
    (claim_host ⟨some none, none⟩ 1).2.lockRow = some 1 := by
  have h := (C3_claim_characterization ⟨some none, none⟩ 1).2 (by decide)
  exact ⟨h.1, h.2⟩

/-- C4 (code bug): interleaving the read and write phases of two
`claim_host` calls (users 1 and 2) on an unclaimed room as
read₁,read₂,write₁,write₂ makes BOTH calls return `true` — and leaves
`host_lock` naming user 1 while `room_state` names user 2 — whereas a
serial execution produces exactly one winner. -/
theorem C4_race_both_claims_succeed :
    ((runRace 1 2 ⟨some none, none⟩ [Tid.A, Tid.B, Tid.A, Tid.B]).retA = some true ∧
     (runRace 1 2 ⟨some none, none⟩ [Tid.A, Tid.B, Tid.A, Tid.B]).retB = some true ∧
     (runRace 1 2 ⟨some none, none⟩ [Tid.A, Tid.B, Tid.A, Tid.B]).db.lockRow = some 1 ∧
     (runRace 1 2 ⟨some none, none⟩ [Tid.A, Tid.B, Tid.A, Tid.B]).db.stateRow = some (some 2)) ∧
    ((runRace 1 2 ⟨some none, none⟩ [Tid.A, Tid.A, Tid.B, Tid.B]).retA = some true ∧
     (runRace 1 2 ⟨some none, none⟩ [Tid.A, Tid.A, Tid.B, Tid.B]).retB = some false) := by
  decide

/-- C5 (counterexample): user 2 is a room member but does not hold the
`host_lock` (user 1 does), yet the row-level-security policy permits user 2
to update the room state; moreover `handleSyncNow` issues a canonical-state
write with no host check at all. -/
theorem C5_counterexample :
    canUpdateRoomState ⟨[1, 2], some 1⟩ 2 = true ∧
    holdsHostLock ⟨[1, 2], some 1⟩ 2 = false ∧
    handleSyncNow true true 5 false = some (5, false) := by
  decide

/-- C5 (amended): store-level write authorization for the canonical state
requires only room membership, not the host lock; the seek UI handler is
host-gated, but `handleSyncNow` issues a position write for any user with a
player and a room. -/
theorem C5_non_host_write_paths (acl : RoomACL) (u : Nat) (t pos : ℚ) (paused : Bool) :
    (canUpdateRoomState acl u = true ↔ u ∈ acl.members) ∧
    handleSeekRequest false true false t = none ∧
    handleSyncNow true true pos paused = some (pos, paused) := by
  refine ⟨?_, rfl, rfl⟩
  simp [canUpdateRoomState]

/-- C6 (counterexample): for a probe with `T0 = 0`, `Ts = 1000`, `T1 = 100`
the spec formula gives offset `950`, but the code's offset is the constant
`0` — the server timestamp is never used to compute an offset. -/
theorem C6_counterexample :
    serverTimeOffset ≠ offsetSpec 0 1000 100 ∧
    offsetSpec 0 1000 100 = 950 ∧
    ping 0 1000 100 = 100 := by
  decide

/-- C6 (amended): the probe computes `rtt = T1 - T0` and discards the
server timestamp; the stored offset is always `0`, so
`correctedNow() = localNow()`; on the instance `T0=1000, Ts=1050, T1=1100`
the code yields `rtt = 100` and offset `0`, agreeing with the spec formula
(which also evaluates to `0` there). -/
theorem C6_clock_sync (T0 Ts T1 l : Int) :
    ping T0 Ts T1 = T1 - T0 ∧
    serverTimeOffset = 0 ∧
    correctedNow l = l ∧
    ping 1000 1050 1100 = 100 ∧
    offsetSpec 1000 1050 1100 = 0 := by
  refine ⟨rfl, rfl, ?_, by decide, by decide⟩
  simp [correctedNow, serverTimeOffset]

/-- C7: on a non-host, non-seeking drift tick with drift above 5000 ms,
`calculateDrift` sets the local position to the predicted position exactly
(hard sync). -/
theorem C7_hard_sync (e a : ℚ) (h : 5000 < driftMs e a) :
    calculateDrift false false e a = some (DriftAction.hardSync e) := by
  unfold calculateDrift driftAction
  simp [h]

/-- C7 witness: predicted 20.0 s and actual 13.5 s (drift 6500 ms) hard
syncs to exactly 20.0 s. -/
theorem C7_hard_sync_witness :
    calculateDrift false false 20 (27 / 2) = some (DriftAction.hardSync 20) :=
  C7_hard_sync 20 (27 / 2) (by rw [driftMs_of_le (by norm_num)]; norm_num)

/-- C8: on a non-host, non-seeking drift tick with drift in (2000, 5000] ms,
`calculateDrift` moves the local position by exactly 10% of the remaining
gap toward the predicted position (and, the function returning a single
action, no other tier fires on that tick). -/
theorem C8_gradual_correction (e a : ℚ) (h1 : 2000 < driftMs e a)
    (h2 : driftMs e a ≤ 5000) :
    calculateDrift false false e a =
      some (DriftAction.gradualSync (a + (e - a) * (1 / 10))) := by
  unfold calculateDrift driftAction
  simp [h1, not_lt.mpr h2]

/-- C8 witness: predicted 10.0 s and actual 7.0 s (drift 3000 ms) moves to
7.0 + 0.10·(10.0 − 7.0) = 7.3 s. -/
theorem C8_gradual_correction_witness :
    calculateDrift false false 10 7 =
      some (DriftAction.gradualSync (7 + (10 - 7) * (1 / 10))) ∧
    (7 + (10 - 7) * (1 / 10) : ℚ) = 73 / 10 :=
  ⟨C8_gradual_correction 10 7 (by rw [driftMs_of_le (by norm_num)]; norm_num)
      (by rw [driftMs_of_le (by norm_num)]; norm_num),
    by norm_num⟩

/-- C9 (counterexample): at predicted 10.0 s, actual 8.5 s (drift 1500 ms,
client behind), the code sets the playback rate to the absolute constant
1.05 — not 1.05 times the canonical rate, from which it differs whenever
the canonical rate is not 1 (e.g. canonical rate 2 would demand 2.1). -/
theorem C9_counterexample :
    driftMs 10 (17 / 2) = 1500 ∧
    driftAction 10 (17 / 2) = DriftAction.rateAdjust (105 / 100) ∧
    (105 / 100 : ℚ) ≠ (105 / 100) * 2 := by
  refine ⟨by rw [driftMs_of_le (by norm_num)]; norm_num, ?_, by norm_num⟩
  unfold driftAction
  rw [driftMs_of_le (by norm_num : (17 / 2 : ℚ) ≤ 10)]
  rw [if_neg (by norm_num), if_neg (by norm_num), if_pos (by norm_num),
    if_pos (by norm_num)]

/-- C9 (amended): with drift in (1000, 2000] ms the rate is set to the
absolute value 1.05 if behind and 0.95 if ahead (independently of the
canonical rate); the `setTimeout` of 2000 ms then restores the canonical
rate unconditionally (with JavaScript `|| 1.0` substituting 1 for a falsy
rate); drift of at most 1000 ms triggers no action. -/
theorem C9_rate_nudge (e a r : ℚ) (h1 : 1000 < driftMs e a)
    (h2 : driftMs e a ≤ 2000) (hr : r ≠ 0) :
    calculateDrift false false e a =
      some (DriftAction.rateAdjust (if a < e then 105 / 100 else 95 / 100)) ∧
    rateAfterWindow r = r ∧
    (∀ e1 a1 : ℚ, driftMs e1 a1 ≤ 1000 → driftAction e1 a1 = DriftAction.noAction) := by
  have h5 : driftMs e a ≤ 5000 := by linarith
  refine ⟨?_, ?_, ?_⟩
  · unfold calculateDrift driftAction
    simp [h1, not_lt.mpr h2, not_lt.mpr h5]
  · unfold rateAfterWindow jsOrOne
    rw [if_neg hr]
  · intro e1 a1 h3
    have h35 : ¬ 5000 < driftMs e1 a1 := by push_neg; linarith
    have h32 : ¬ 2000 < driftMs e1 a1 := by push_neg; linarith
    unfold driftAction
    rw [if_neg h35, if_neg h32, if_neg (not_lt.mpr h3)]

/-- C9 witness: drift 1500 ms behind nudges the rate to 1.05, and after the
2-second window the rate reverts to the canonical rate 2. -/
theorem C9_rate_nudge_witness :
    calculateDrift false false 10 (17 / 2) =
      some (DriftAction.rateAdjust (if (17 / 2 : ℚ) < 10 then 105 / 100 else 95 / 100)) ∧
    rateAfterWindow 2 = 2 :=
  ⟨(C9_rate_nudge 10 (17 / 2) 2 (by rw [driftMs_of_le (by norm_num)]; norm_num)
      (by rw [driftMs_of_le (by norm_num)]; norm_num) (by norm_num)).1,
   (C9_rate_nudge 10 (17 / 2) 2 (by rw [driftMs_of_le (by norm_num)]; norm_num)
      (by rw [driftMs_of_le (by norm_num)]; norm_num) (by norm_num)).2.1⟩

/-- C10 (counterexample): with the host state {paused: false,
position: 10.0, rate: 1.0}, elapsed 3.0 s and a measured RTT of 100 ms, the
predicted position is 13.05 s, not 13.0 s — the code adds an `rtt / 2000`
network-delay term absent from the claim. -/
theorem C10_counterexample :
    expectedPosition false 10 1 100 3 = 261 / 20 ∧
    (261 / 20 : ℚ) ≠ 13 := by
  constructor
  · unfold expectedPosition jsOrOne
    rw [if_pos ⟨rfl, by norm_num, by norm_num⟩, if_neg (by norm_num)]
    norm_num
  · norm_num

/-- C10 (amended): when playing and 0 < elapsed < 10 s, the predicted
position is `position + elapsed · rate + rtt/2000` (network-delay
compensation included); when paused it is the canonical position; elapsed
times outside (0, 10) are discarded.  The claim's 13.0 s instance holds
exactly when rtt = 0. -/
theorem C10_predicted_position (p r rtt t : ℚ) (h1 : 0 < t) (h2 : t < 10)
    (hr : r ≠ 0) :
    expectedPosition false p r rtt t = p + t * r + rtt / 2000 ∧
    (∀ p1 r1 rtt1 t1 : ℚ, expectedPosition true p1 r1 rtt1 t1 = p1) ∧
    (∀ p1 r1 rtt1 t1 : ℚ, 10 ≤ t1 → expectedPosition false p1 r1 rtt1 t1 = p1) := by
  refine ⟨?_, ?_, ?_⟩
  · unfold expectedPosition jsOrOne
    rw [if_pos ⟨rfl, h1, h2⟩, if_neg hr]
  · intro p1 r1 rtt1 t1
    simp [expectedPosition]
  · intro p1 r1 rtt1 t1 h10
    unfold expectedPosition
    rw [if_neg]
    rintro ⟨-, -, hlt⟩
    exact absurd hlt (not_lt.mpr h10)

/-- C10 witness: position 10, rate 1, rtt 0, elapsed 3 s predicts
10 + 3·1 + 0/2000 = 13.0 s. -/
theorem C10_predicted_position_witness :
    expectedPosition false 10 1 0 3 = 10 + 3 * 1 + 0 / 2000 ∧
    (10 + 3 * 1 + 0 / 2000 : ℚ) = 13 :=
  ⟨(C10_predicted_position 10 1 0 3 (by norm_num) (by norm_num) (by norm_num)).1,
   by norm_num⟩
